import Mathlib

/-!
Shallow embedding of the node-typescript-boilerplate example backend:
the decorated `User` entity descriptor, the derived persistence schema and
query-language (GraphQL) type, the `UserResolver` CRUD handlers, the CORS
bootstrap configuration from `src/index.ts`, and the connection handle
exported by `src/config/mongoose.ts` / consumed by `src/config/typegoose.ts`.
-/

namespace NTB

/-! ## Entity descriptor: the decorated `User` class -/

/-- One field of a decorated entity class: `hasProp` records a `@Property`
(typegoose) decorator (the field is persisted), `hasField` records a `@Field`
(type-graphql) decorator (the field appears in the GraphQL object type),
`exposedName` records the `name` option passed to `@Field` when present. -/
structure FieldSpec where
  name : String
  hasProp : Bool
  hasField : Bool
  exposedName : Option String
  required : Bool
  unique : Bool
  hasDefault : Bool
  nullable : Bool
  computed : Bool
  deriving Repr, DecidableEq

/-- `readonly _id: ObjectId` with `@Field((type) => ID)` and no `@Property`. -/
def idField : FieldSpec :=
  { name := "_id", hasProp := false, hasField := true, exposedName := none,
    required := false, unique := false, hasDefault := false, nullable := false,
    computed := false }

/-- `name: string` with `@Property({required: true})` and `@Field({description})`. -/
def nameField : FieldSpec :=
  { name := "name", hasProp := true, hasField := true, exposedName := none,
    required := true, unique := false, hasDefault := false, nullable := false,
    computed := false }

/-- `email: string` with `@Property({required: true, unique: true})` and `@Field()`. -/
def emailField : FieldSpec :=
  { name := "email", hasProp := true, hasField := true, exposedName := none,
    required := true, unique := true, hasDefault := false, nullable := false,
    computed := false }

/-- `username?: string` with `@Property({required: false, default: generateUserName()})`
and `@Field({nullable: true})`. -/
def usernameField : FieldSpec :=
  { name := "username", hasProp := true, hasField := true, exposedName := none,
    required := false, unique := false, hasDefault := true, nullable := true,
    computed := false }

/-- `password: string` with `@Property({required: true})` and no `@Field`
decorator: persisted only, never exposed to GraphQL. -/
def passwordField : FieldSpec :=
  { name := "password", hasProp := true, hasField := false, exposedName := none,
    required := true, unique := false, hasDefault := false, nullable := false,
    computed := false }

/-- `articles: string[]` with `@Property({required: false, default: []})` and
`@Field((type) => [string], {name: 'articleIds'})`: persisted as `articles`,
exposed in GraphQL under the name `articleIds`. -/
def articlesField : FieldSpec :=
  { name := "articles", hasProp := true, hasField := true,
    exposedName := some "articleIds", required := false, unique := false,
    hasDefault := true, nullable := false, computed := false }

/-- `get articles(): Article[]` with `@Field((type) => [Article])` and no
`@Property`: a computed resolver-backed GraphQL field, absent from the schema. -/
def articlesGetterField : FieldSpec :=
  { name := "articles", hasProp := false, hasField := true, exposedName := none,
    required := false, unique := false, hasDefault := false, nullable := false,
    computed := true }

/-- The field list of the decorated `User` class, in source order. -/
def userFields : List FieldSpec :=
  [idField, nameField, emailField, usernameField, passwordField, articlesField,
   articlesGetterField]

/-! ## Derived schema generator -/

/-- The derived GraphQL object type: exactly the fields carrying `@Field`. -/
def queryTypeFields (fs : List FieldSpec) : List FieldSpec :=
  fs.filter (·.hasField)

/-- The GraphQL name of an exposed field: the `name` option of `@Field` when
given, the class property name otherwise. -/
def graphqlName (f : FieldSpec) : String :=
  f.exposedName.getD f.name

/-- Names of the fields of the derived GraphQL object type. -/
def queryFieldNames (fs : List FieldSpec) : List String :=
  (queryTypeFields fs).map graphqlName

/-- The derived persistence (mongoose) schema: exactly the fields carrying
`@Property`. -/
def persistedFields (fs : List FieldSpec) : List FieldSpec :=
  fs.filter (·.hasProp)

/-- Names of the persisted fields of the derived mongoose schema. -/
def persistedFieldNames (fs : List FieldSpec) : List String :=
  (persistedFields fs).map (·.name)

/-! ## Documents and the persistence store -/

/-- A persisted `User` document. -/
structure UserDoc where
  _id : String
  name : String
  email : String
  username : Option String
  password : String
  articles : List String
  deriving Repr, DecidableEq

/-- The document store: the `users` collection plus a counter from which the
store assigns fresh identifiers on save. -/
structure Store where
  docs : List UserDoc
  nextId : Nat
  deriving Repr, DecidableEq

/-- A store with no documents. -/
def emptyStore : Store := { docs := [], nextId := 0 }

/-- `UserModel.find({})`: every document of the collection. -/
def findAll (st : Store) : List UserDoc :=
  st.docs

/-- `UserModel.find({email})`: the (possibly empty) array of documents whose
`email` equals the filter value. -/
def findByEmail (st : Store) (email : String) : List UserDoc :=
  st.docs.filter (fun d => d.email == email)

/-- `UserModel.findById(id)`: the document with the given identifier, or null. -/
def findById (st : Store) (id : String) : Option UserDoc :=
  st.docs.find? (fun d => d._id == id)

/-- Replace the first element satisfying `p` by its image under `f`. -/
def updateFirst (p : UserDoc → Bool) (f : UserDoc → UserDoc) :
    List UserDoc → List UserDoc
  | [] => []
  | d :: ds => if p d then f d :: ds else d :: updateFirst p f ds

/-- Modelled from the spec: `generateUserName` is referenced by the `username`
default in the `User` class but its body appears nowhere in the repository;
the spec says only that a username is auto-generated when the input omits one. -/
def generateUserName : String :=
  "generated-username"

/-! ## JavaScript truthiness -/

/-- JavaScript truthiness of an array value: an array is an object, and every
object is truthy in JavaScript, even an empty array. -/
def arrayTruthy (_ : List UserDoc) : Bool :=
  true

/-! ## Resolver context and inputs -/

/-- The GraphQL context: `ctx.user` is the authenticated caller, if any. -/
structure Context where
  user : Option UserDoc
  deriving Repr, DecidableEq

/-- The `userInputType` input class / the argument set of `addUser`:
`name`, `email`, optional `username`, `password`. -/
structure UserInputType where
  name : String
  email : String
  username : Option String
  password : String
  deriving Repr, DecidableEq

/-! ## Operation handlers (UserResolver) -/

/-- `getUsers`: `return await UserModel.find({})`. -/
def getUsers (st : Store) : List UserDoc :=
  findAll st

/-- `getUserById(id)`: `return await UserModel.findById(id)`. -/
def getUserById (st : Store) (id : String) : Option UserDoc :=
  findById st id

/-- `addUser`: looks up `UserModel.find({email})`, throws
`'User already Exists'` when that array is truthy, otherwise saves a new
document (schema defaults applied: generated username when omitted, empty
`articles` overwritten by the explicit `articles: []`) and returns it.
The result pairs the thrown-or-returned value with the post-call store. -/
def addUser (st : Store) (input : UserInputType) :
    Except String UserDoc × Store :=
  let existingUser := findByEmail st input.email
  if arrayTruthy existingUser then (Except.error "User already Exists", st)
  else
    let newUser : UserDoc :=
      { _id := Nat.repr st.nextId, name := input.name, email := input.email,
        username := match input.username with
          | some u => some u
          | none => some generateUserName,
        password := input.password, articles := [] }
    (Except.ok newUser, { docs := st.docs ++ [newUser], nextId := st.nextId + 1 })

/-- `updateUser(user, ctx)`: throws `"User not authorized."` when `!ctx.user`;
otherwise `UserModel.findOneAndUpdate({email}, {name, email, username,
password})`, which updates the first document matching the email filter and
resolves to the pre-update document (or null when none matches). -/
def updateUser (ctx : Context) (st : Store) (u : UserInputType) :
    Except String (Option UserDoc) × Store :=
  if ctx.user.isNone then (Except.error "User not authorized.", st)
  else
    let apply := fun (d : UserDoc) =>
      { d with name := u.name, email := u.email,
               username := u.username, password := u.password }
    let newDocs := updateFirst (fun d => d.email == u.email) apply st.docs
    (Except.ok (st.docs.find? (fun d => d.email == u.email)),
     { st with docs := newDocs })

/-- `deleteUser(id, ctx)`: throws `"User not authorized"` when `!ctx.user`;
otherwise `await UserModel.findByIdAndDelete(id)` and `return true`. -/
def deleteUser (ctx : Context) (st : Store) (id : String) :
    Except String Bool × Store :=
  if ctx.user.isNone then (Except.error "User not authorized", st)
  else
    (Except.ok true,
     { st with docs := st.docs.filter (fun d => !(d._id == id)) })

/-! ## Server bootstrap: CORS (src/index.ts) -/

/-- The environment-provided configuration read at bootstrap. -/
structure Env where
  PORT : Option String
  NODE_ENV : Option String
  MONGO_APP_URL : Option String
  deriving Repr, DecidableEq

/-- The `origin` passed to the express `cors` middleware in `src/index.ts`:
the literal `'https://localhost:3000'`, taking nothing from the environment. -/
def corsOrigin (_ : Env) : String :=
  "https://localhost:3000"

/-- The `cors.origin` passed to `apolloServer.applyMiddleware` in
`src/index.ts`: the same literal `'https://localhost:3000'`. -/
def apolloCorsOrigin (_ : Env) : String :=
  "https://localhost:3000"

/-! ## Connection handle (src/config/mongoose.ts, src/config/typegoose.ts) -/

/-- Placeholder for the mongoose connection object (an external collaborator). -/
structure Connection where
  handle : Nat
  deriving Repr, DecidableEq

/-- A JavaScript value that is either the boolean `false` or a connection
object, as produced by `readyState !== 1 && mongoose.connection`. -/
inductive DbVal where
  | jsFalse : DbVal
  | conn : Connection → DbVal
  deriving Repr, DecidableEq

/-- JavaScript truthiness of such a value: `false` is falsy, an object truthy. -/
def dbTruthy : DbVal → Bool
  | DbVal.jsFalse => false
  | DbVal.conn _ => true

/-- JavaScript `a && b`: returns `a` when `a` is falsy, `b` otherwise. -/
def jsAnd (a b : DbVal) : DbVal :=
  if dbTruthy a then b else a

/-- `export const db = mongoose.connection.readyState !== 1 &&
mongoose.connection`, evaluated at module load with the connection in state
`readyState`: the boolean comparison `readyState !== 1` is the left operand
of `&&`, so `db` is the boolean `false` when `readyState === 1` (left operand
falsy, `&&` yields it) and the connection object otherwise (left operand
truthy, `&&` yields the right operand). -/
def db (readyState : Nat) (c : Connection) : DbVal :=
  if readyState ≠ 1 then DbVal.conn c else DbVal.jsFalse

/-- The options record built by `getSchemaOptions` in `src/config/typegoose.ts`. -/
structure SchemaOptions where
  existingConnection : DbVal
  runSyncIndexes : Bool
  timestamps : Bool
  deriving Repr, DecidableEq

/-- `getSchemaOptions`: `existingConnection: db && db` plus fixed options. -/
def getSchemaOptions (readyState : Nat) (c : Connection) : SchemaOptions :=
  { existingConnection := jsAnd (db readyState c) (db readyState c),
    runSyncIndexes := true, timestamps := true }

/-! ## Shared sample data and helper lemmas -/

/-- A sample stored document used to instantiate quantified theorems. -/
def sampleUser : UserDoc :=
  { _id := "0", name := "Ada", email := "ada@example.com",
    username := some "ada", password := "pw", articles := [] }

/-- A context whose caller is authenticated. -/
def authCtx : Context := { user := some sampleUser }

/-- A store holding exactly `sampleUser`. -/
def sampleStore : Store := { docs := [sampleUser], nextId := 1 }

/-- Filtering away documents with an identifier no document has is the
identity. -/
theorem filter_id_no_match (id : String) :
    ∀ l : List UserDoc, (∀ d ∈ l, d._id ≠ id) →
      l.filter (fun d => !(d._id == id)) = l := by
  intro l
  induction l with
  | nil => intro _; rfl
  | cons d ds ih =>
    intro h
    have hd : d._id ≠ id := h d (List.mem_cons_self d ds)
    have : (!(d._id == id)) = true := by simp [hd]
    simp only [List.filter_cons, this, if_pos]
    rw [ih (fun x hx => h x (List.mem_cons_of_mem d hx))]

/-! ## Claims -/

/-- C1: a persisted-only field never appears in the derived query-language
type — every field of the derived GraphQL type carries the `@Field` marker,
and in particular the User class's `password` field (which carries `@Property`
but no `@Field`) is absent from the GraphQL field names while present in the
persistence schema. -/
theorem persistedOnly_absent_from_query_type :
    (∀ (fs : List FieldSpec) (f : FieldSpec),
      f ∈ queryTypeFields fs → f.hasField = true) ∧
    "password" ∉ queryFieldNames userFields ∧
    "password" ∈ persistedFieldNames userFields := by
  refine ⟨?_, by decide, by decide⟩
  intro fs f hf
  exact (List.mem_filter.mp hf).2

/-- Witness for C1: the `_id` field, a member of the derived query type of the
User descriptor, indeed carries the `@Field` marker. -/
theorem persistedOnly_absent_from_query_type_witness :
    idField.hasField = true :=
  persistedOnly_absent_from_query_type.1 userFields idField (by decide)

/-- C2: evaluation at the failing input. On an empty store the email filter
matches nothing, yet `addUser` rejects with the duplicate error and persists
nothing, instead of creating the user and returning it with its identifier. -/
theorem addUser_rejects_fresh_email :
    findByEmail emptyStore "alice@example.com" = [] ∧
    addUser emptyStore
        { name := "Alice", email := "alice@example.com", username := none,
          password := "secret" } =
      (Except.error "User already Exists", emptyStore) :=
  ⟨rfl, rfl⟩

/-- C3: for every store state and every input, `addUser` throws
`'User already Exists'` and leaves the store unchanged, because the truthiness
check on the array returned by `find({email})` succeeds even when the array is
empty; no document is ever created through `addUser`. -/
theorem addUser_always_throws (st : Store) (input : UserInputType) :
    addUser st input = (Except.error "User already Exists", st) :=
  rfl

/-- C4: when the context carries no authenticated user, `updateUser` and
`deleteUser` reject with their authorization errors and the store is
unchanged, regardless of the store's contents (so regardless of whether the
target exists). -/
theorem unauthorized_rejected_store_unchanged (ctx : Context) (st : Store)
    (u : UserInputType) (id : String) (h : ctx.user = none) :
    updateUser ctx st u = (Except.error "User not authorized.", st) ∧
    deleteUser ctx st id = (Except.error "User not authorized", st) := by
  constructor
  · simp [updateUser, h]
  · simp [deleteUser, h]

/-- Witness for C4 at a concrete unauthenticated context, store and input. -/
theorem unauthorized_rejected_store_unchanged_witness :
    updateUser { user := none } sampleStore
        { name := "X", email := "x@y.z", username := none, password := "p" } =
      (Except.error "User not authorized.", sampleStore) ∧
    deleteUser { user := none } sampleStore "0" =
      (Except.error "User not authorized", sampleStore) :=
  unauthorized_rejected_store_unchanged { user := none } sampleStore
    { name := "X", email := "x@y.z", username := none, password := "p" } "0" rfl

/-- C5: with an authenticated context, `deleteUser` returns `true` for every
identifier; a second call on the same identifier also returns `true`; and
deleting an identifier no stored document has leaves the store unchanged
(no-op success). -/
theorem deleteUser_idempotent (ctx : Context) (st : Store) (id : String)
    (h : ctx.user.isSome = true) :
    (deleteUser ctx st id).1 = Except.ok true ∧
    (deleteUser ctx (deleteUser ctx st id).2 id).1 = Except.ok true ∧
    ((∀ d ∈ st.docs, d._id ≠ id) → (deleteUser ctx st id).2 = st) := by
  have hn : ctx.user.isNone = false := by
    cases hc : ctx.user with
    | none => rw [hc] at h; simp at h
    | some u => simp
  refine ⟨?_, ?_, ?_⟩
  · simp [deleteUser, hn]
  · simp [deleteUser, hn]
  · intro habs
    simp only [deleteUser, hn, Bool.false_eq_true, if_neg, ite_false]
    rw [filter_id_no_match id st.docs habs]

/-- Witness for C5: deleting the stored identifier `"0"` returns `true`,
deleting it again returns `true`, and deleting the absent identifier `"1"`
leaves the store unchanged. -/
theorem deleteUser_idempotent_witness :
    (deleteUser authCtx sampleStore "0").1 = Except.ok true ∧
    (deleteUser authCtx (deleteUser authCtx sampleStore "0").2 "0").1 =
      Except.ok true ∧
    (deleteUser authCtx sampleStore "1").2 = sampleStore :=
  ⟨(deleteUser_idempotent authCtx sampleStore "0" rfl).1,
   (deleteUser_idempotent authCtx sampleStore "0" rfl).2.1,
   (deleteUser_idempotent authCtx sampleStore "1" rfl).2.2 (by decide)⟩

/-- C6: `getUserById` on an identifier no stored document has returns the
null result (and its return type has no error channel: the handler only
forwards `findById`), and `getUsers` on the empty store returns the empty
sequence. -/
theorem getUserById_absent_none (st : Store) (id : String)
    (h : ∀ d ∈ st.docs, d._id ≠ id) :
    getUserById st id = none ∧ getUsers emptyStore = [] := by
  refine ⟨?_, rfl⟩
  rw [getUserById, findById, List.find?_eq_none]
  intro d hd
  simpa using h d hd

/-- Witness for C6: identifier `"42"` is absent from the sample store. -/
theorem getUserById_absent_none_witness :
    getUserById sampleStore "42" = none ∧ getUsers emptyStore = [] :=
  getUserById_absent_none sampleStore "42" (by decide)

/-- C7: evaluation at the failing input: the round trip cannot begin, because
`addUser` never returns an identifier — on the empty store it rejects and the
store still holds no users to fetch. -/
theorem roundTrip_blocked :
    (addUser emptyStore
        { name := "Bob", email := "bob@example.com", username := some "bob",
          password := "pw" }).1 = Except.error "User already Exists" ∧
    getUsers (addUser emptyStore
        { name := "Bob", email := "bob@example.com", username := some "bob",
          password := "pw" }).2 = [] :=
  ⟨rfl, rfl⟩

/-- C8: the User field persisted as `articles` carries an explicit exposed
name `articleIds`; `articleIds` is a GraphQL field name of the derived query
type, `articles` is a field name of the derived persistence schema, and
`articleIds` is not a persisted name. -/
theorem articles_exposed_as_articleIds :
    (∃ f ∈ userFields, f.name = "articles" ∧ f.hasProp = true ∧
      f.exposedName = some "articleIds") ∧
    "articleIds" ∈ queryFieldNames userFields ∧
    "articles" ∈ persistedFieldNames userFields ∧
    "articleIds" ∉ persistedFieldNames userFields := by
  decide

/-- C9 counterexample: the accepted origin is not drawn from a configurable
allow-list — two environments differing in every configuration value yield
the same single accepted origin, the fixed constant. -/
theorem corsOrigin_not_configurable :
    corsOrigin { PORT := some "3000", NODE_ENV := some "production",
                 MONGO_APP_URL := some "mongodb://a" } =
      corsOrigin { PORT := some "4000", NODE_ENV := some "development",
                   MONGO_APP_URL := none } ∧
    corsOrigin { PORT := some "3000", NODE_ENV := some "production",
                 MONGO_APP_URL := some "mongodb://a" } =
      "https://localhost:3000" :=
  ⟨rfl, rfl⟩

/-- C9 amended: for every environment, the origin accepted by both the
express `cors` middleware and the apollo middleware is the single fixed
constant `https://localhost:3000`; the policy is not configurable and is not
a list. -/
theorem corsOrigin_fixed_constant (e : Env) :
    corsOrigin e = "https://localhost:3000" ∧
    apolloCorsOrigin e = "https://localhost:3000" :=
  ⟨rfl, rfl⟩

/-- C10: `db` is the connection object exactly when `readyState` is not 1 at
module evaluation, and the boolean `false` when `readyState` is 1; hence
`getSchemaOptions().existingConnection` (computed as `db && db`) is `false`
exactly when the connection was already open at module load, and the
connection object otherwise. -/
theorem db_false_iff_connection_open (readyState : Nat) (c : Connection) :
    (readyState = 1 → db readyState c = DbVal.jsFalse ∧
      (getSchemaOptions readyState c).existingConnection = DbVal.jsFalse) ∧
    (readyState ≠ 1 → db readyState c = DbVal.conn c ∧
      (getSchemaOptions readyState c).existingConnection = DbVal.conn c) := by
  constructor
  · intro h
    subst h
    exact ⟨rfl, rfl⟩
  · intro h
    constructor
    · simp [db, h]
    · simp [getSchemaOptions, db, h, jsAnd, dbTruthy]

/-- Witness for C10 at `readyState = 1` (already open) and `readyState = 0`
(connecting). -/
theorem db_false_iff_connection_open_witness :
    db 1 { handle := 0 } = DbVal.jsFalse ∧
    (getSchemaOptions 0 { handle := 0 }).existingConnection =
      DbVal.conn { handle := 0 } :=
  ⟨((db_false_iff_connection_open 1 { handle := 0 }).1 rfl).1,
   ((db_false_iff_connection_open 0 { handle := 0 }).2 (by decide)).2⟩

end NTB
